import Mathlib

/-!
Verification of the `nkd-w4-prim` WASM-4 binding crate (`src/lib.rs`).

The crate is declarative: it fixes MMIO register addresses, bitmask
constants, and the signatures/contracts of host-implemented calls.  The
constants and addresses below are transcribed from `src/lib.rs`; the
host-side behaviour (drawing, audio, storage) is not part of the crate's
source, so those operations are modelled from the specification's
contracts, each marked `Modelled from the spec:` in its doc comment.
-/

namespace W4

/-! ## Platform constants and MMIO addresses (from `src/lib.rs`) -/

/-- `pub const SCREEN_SIZE: u32 = 160;` -/
def SCREEN_SIZE : Nat := 160

/-- `pub const PALETTE: *mut [u32; 4] = 0x04 as _;` — address of the palette. -/
def PALETTE_ADDR : Nat := 0x04

/-- The palette is `[u32; 4]`: 16 bytes. -/
def PALETTE_SIZE : Nat := 4 * 4

/-- `pub const DRAW_COLORS: *mut u16 = 0x14 as _;` -/
def DRAW_COLORS_ADDR : Nat := 0x14

/-- `DRAW_COLORS` is a `u16`: 2 bytes. -/
def DRAW_COLORS_SIZE : Nat := 2

/-- `pub const GAMEPADS: *const [u8; 4] = 0x16 as _;` -/
def GAMEPADS_ADDR : Nat := 0x16

/-- `GAMEPADS` is `[u8; 4]`: 4 bytes. -/
def GAMEPADS_SIZE : Nat := 4

/-- `pub const MOUSE_X: *const i16 = 0x1a as _;` -/
def MOUSE_X_ADDR : Nat := 0x1a

/-- `MOUSE_X` is an `i16`: 2 bytes. -/
def MOUSE_X_SIZE : Nat := 2

/-- `pub const MOUSE_Y: *const i16 = 0x1c as _;` -/
def MOUSE_Y_ADDR : Nat := 0x1c

/-- `MOUSE_Y` is an `i16`: 2 bytes. -/
def MOUSE_Y_SIZE : Nat := 2

/-- `pub const MOUSE_BUTTONS: *const u8 = 0x1e as _;` -/
def MOUSE_BUTTONS_ADDR : Nat := 0x1e

/-- `MOUSE_BUTTONS` is a `u8`: 1 byte. -/
def MOUSE_BUTTONS_SIZE : Nat := 1

/-- `pub const SYSTEM_FLAGS: *mut u8 = 0x1f as _;` -/
def SYSTEM_FLAGS_ADDR : Nat := 0x1f

/-- `SYSTEM_FLAGS` is a `u8`: 1 byte. -/
def SYSTEM_FLAGS_SIZE : Nat := 1

/-- `pub const NETPLAY: *const u8 = 0x20 as _;` -/
def NETPLAY_ADDR : Nat := 0x20

/-- `NETPLAY` is a `u8`: 1 byte. -/
def NETPLAY_SIZE : Nat := 1

/-- `pub const FRAMEBUFFER: *mut [[u8; 40]; 160] = 0xa0 as _;` -/
def FRAMEBUFFER_ADDR : Nat := 0xa0

/-- The framebuffer is `[[u8; 40]; 160]`: 160 rows of 40 bytes. -/
def FRAMEBUFFER_SIZE : Nat := 160 * 40

/-- The set of byte addresses occupied by a region starting at `a` of `s` bytes. -/
def regionAddrs (a s : Nat) : Set Nat := Set.Ico a (a + s)

/-- Boolean interval-disjointness test for two regions `(addr, size)`. -/
def regionsDisjointB (r r' : Nat × Nat) : Bool :=
  decide (r.1 + r.2 ≤ r'.1) || decide (r'.1 + r'.2 ≤ r.1)

/-- All declared MMIO regions of the crate, as `(addr, size)` pairs. -/
def mmioRegions : List (Nat × Nat) :=
  [ (PALETTE_ADDR, PALETTE_SIZE)
  , (DRAW_COLORS_ADDR, DRAW_COLORS_SIZE)
  , (GAMEPADS_ADDR, GAMEPADS_SIZE)
  , (MOUSE_X_ADDR, MOUSE_X_SIZE)
  , (MOUSE_Y_ADDR, MOUSE_Y_SIZE)
  , (MOUSE_BUTTONS_ADDR, MOUSE_BUTTONS_SIZE)
  , (SYSTEM_FLAGS_ADDR, SYSTEM_FLAGS_SIZE)
  , (NETPLAY_ADDR, NETPLAY_SIZE)
  , (FRAMEBUFFER_ADDR, FRAMEBUFFER_SIZE) ]

lemma regionsDisjointB_sound {r r' : Nat × Nat} (h : regionsDisjointB r r' = true) :
    Disjoint (regionAddrs r.1 r.2) (regionAddrs r'.1 r'.2) := by
  rw [Set.disjoint_left]
  rintro x ⟨h1, h2⟩ ⟨h3, h4⟩
  simp only [regionsDisjointB, Bool.or_eq_true, decide_eq_true_eq] at h
  omega

/-! ## Gamepad, mouse, system-flag bitmasks (from `src/lib.rs`) -/

/-- `pub const GAMEPAD_X: u8 = 0b00000001;` -/
def GAMEPAD_X : Nat := 0b00000001

/-- `pub const GAMEPAD_Z: u8 = 0b00000010;` -/
def GAMEPAD_Z : Nat := 0b00000010

/-- `pub const GAMEPAD_LEFT: u8 = 0b00010000;` -/
def GAMEPAD_LEFT : Nat := 0b00010000

/-- `pub const GAMEPAD_RIGHT: u8 = 0b00100000;` -/
def GAMEPAD_RIGHT : Nat := 0b00100000

/-- `pub const GAMEPAD_UP: u8 = 0b01000000;` -/
def GAMEPAD_UP : Nat := 0b01000000

/-- `pub const GAMEPAD_DOWN: u8 = 0b10000000;` -/
def GAMEPAD_DOWN : Nat := 0b10000000

/-- `pub const MOUSE_LEFT: u8 = 1;` -/
def MOUSE_LEFT : Nat := 1

/-- `pub const MOUSE_RIGHT: u8 = 2;` -/
def MOUSE_RIGHT : Nat := 2

/-- `pub const MOUSE_MIDDLE: u8 = 4;` -/
def MOUSE_MIDDLE : Nat := 4

/-- `pub const SYSTEM_PRESERVE_FRAMEBUFFER: u8 = 0b00000001;` -/
def SYSTEM_PRESERVE_FRAMEBUFFER : Nat := 0b00000001

/-- `pub const SYSTEM_HIDE_GAMEPAD_OVERLAY: u8 = 0b00000010;` -/
def SYSTEM_HIDE_GAMEPAD_OVERLAY : Nat := 0b00000010

/-! ## Blit flag bitmasks (from `src/lib.rs`) -/

/-- `pub const BLIT_1BPP: u32 = 0b0000;` -/
def BLIT_1BPP : Nat := 0b0000

/-- `pub const BLIT_2BPP: u32 = 0b0001;` -/
def BLIT_2BPP : Nat := 0b0001

/-- `pub const BLIT_FLIP_H: u32 = 0b0010;` -/
def BLIT_FLIP_H : Nat := 0b0010

/-- `pub const BLIT_FLIP_V: u32 = 0b0100;` -/
def BLIT_FLIP_V : Nat := 0b0100

/-- `pub const BLIT_ROTATE: u32 = 0b1000;` -/
def BLIT_ROTATE : Nat := 0b1000

/-! ## Tone flag bitmasks (from `src/lib.rs`) -/

/-- `pub const TONE_PULSE1: u32 = 0b000000;` -/
def TONE_PULSE1 : Nat := 0b000000

/-- `pub const TONE_PULSE2: u32 = 0b000001;` -/
def TONE_PULSE2 : Nat := 0b000001

/-- `pub const TONE_TRIANGLE: u32 = 0b000010;` -/
def TONE_TRIANGLE : Nat := 0b000010

/-- `pub const TONE_NOISE: u32 = 0b000011;` -/
def TONE_NOISE : Nat := 0b000011

/-- `pub const TONE_DC_12_5: u32 = 0b000000;` -/
def TONE_DC_12_5 : Nat := 0b000000

/-- `pub const TONE_DC_25: u32 = 0b000100;` -/
def TONE_DC_25 : Nat := 0b000100

/-- `pub const TONE_DC_50: u32 = 0b001000;` -/
def TONE_DC_50 : Nat := 0b001000

/-- `pub const TONE_DC_75: u32 = 0b001100;` -/
def TONE_DC_75 : Nat := 0b001100

/-- `pub const TONE_PAN_CENTER: u32 = 0b000000;` -/
def TONE_PAN_CENTER : Nat := 0b000000

/-- `pub const TONE_PAN_LEFT: u32 = 0b010000;` -/
def TONE_PAN_LEFT : Nat := 0b010000

/-- `pub const TONE_PAN_RIGHT: u32 = 0b100000;` -/
def TONE_PAN_RIGHT : Nat := 0b100000

/-! ## Framebuffer pixel model

The crate exposes the framebuffer only as `[[u8; 40]; 160]` at `0xa0`;
pixel access code is host-side / caller-side.  The pixel addressing scheme
is modelled from the spec. -/

/-- A framebuffer state: byte contents, indexed by byte offset from the
start of the framebuffer region. -/
abbrev Fb : Type := Nat → Nat

/-- Modelled from the spec: the framebuffer byte index of pixel `(x, y)`
is `y*40 + (x>>2)` (row-major, 4 pixels per byte). -/
def fbByteIndex (x y : Nat) : Nat := y * 40 + (x >>> 2)

/-- Modelled from the spec: the 2-bit cell offset of pixel `x` within its
byte is `(x&3)*2`. -/
def fbBitOffset (x : Nat) : Nat := (x &&& 3) * 2

/-- Modelled from the spec: reading pixel `(x, y)` extracts the 2-bit cell
at `fbBitOffset x` of byte `fbByteIndex x y`. -/
def getPixel (fb : Fb) (x y : Nat) : Nat :=
  (fb (fbByteIndex x y) >>> fbBitOffset x) % 4

/-- Modelled from the spec: writing pixel value `v` (masked to 2 bits) to
`(x, y)` replaces only the 2-bit cell at `fbBitOffset x` of byte
`fbByteIndex x y`, splicing the bits below and above the cell unchanged. -/
def setPixel (fb : Fb) (x y v : Nat) : Fb := fun i =>
  if i = fbByteIndex x y then
    fb i % 2 ^ fbBitOffset x
      + v % 4 * 2 ^ fbBitOffset x
      + fb i / 2 ^ (fbBitOffset x + 2) * 2 ^ (fbBitOffset x + 2)
  else fb i

lemma and_three_eq_mod_four (x : Nat) : x &&& 3 = x % 4 := by
  have := Nat.and_pow_two_sub_one_eq_mod x 2
  norm_num at this
  omega

lemma shiftRight_two_eq_div_four (x : Nat) : x >>> 2 = x / 4 := by
  rw [Nat.shiftRight_eq_div_pow]

lemma fbByteIndex_eq (x y : Nat) : fbByteIndex x y = y * 40 + x / 4 := by
  rw [fbByteIndex, shiftRight_two_eq_div_four]

lemma fbBitOffset_eq (x : Nat) : fbBitOffset x = x % 4 * 2 := by
  rw [fbBitOffset, and_three_eq_mod_four]

/-- Reading back the 2-bit cell just spliced in returns the written value. -/
lemma cell_splice_same (b v k : Nat) (hk : k < 4) (hv : v ≤ 3) :
    (b % 2 ^ (k * 2) + v * 2 ^ (k * 2) + b / 2 ^ (k * 2 + 2) * 2 ^ (k * 2 + 2))
        / 2 ^ (k * 2) % 4 = v := by
  interval_cases k <;> norm_num <;> omega

/-- Splicing a 2-bit cell leaves every other 2-bit cell of the byte intact. -/
lemma cell_splice_other (b v k k' : Nat) (hk : k < 4) (hk' : k' < 4)
    (hne : k ≠ k') (hv : v ≤ 3) :
    (b % 2 ^ (k * 2) + v * 2 ^ (k * 2) + b / 2 ^ (k * 2 + 2) * 2 ^ (k * 2 + 2))
        / 2 ^ (k' * 2) % 4 = b / 2 ^ (k' * 2) % 4 := by
  interval_cases k <;> interval_cases k' <;> norm_num <;> omega

/-- C1: for every pixel `(x, y)` with `0 ≤ x, y < 160`, the framebuffer
cell sits at byte index `y*40 + (x>>2)` (within the 160×40-byte region) at
2-bit offset `(x&3)*2`; writing any `v ≤ 3` then reading it back returns
`v`, and every other pixel cell is unchanged. -/
theorem C1_framebuffer_cell_roundtrip (fb : Fb) (x y v x' y' : Nat)
    (hx : x < 160) (hy : y < 160) (hv : v ≤ 3)
    (hx' : x' < 160) (hy' : y' < 160) (hne : (x', y') ≠ (x, y)) :
    fbByteIndex x y = y * 40 + x / 4 ∧
    fbBitOffset x = x % 4 * 2 ∧
    fbByteIndex x y < FRAMEBUFFER_SIZE ∧
    getPixel (setPixel fb x y v) x y = v ∧
    getPixel (setPixel fb x y v) x' y' = getPixel fb x' y' := by
  have hv4 : v % 4 = v := Nat.mod_eq_of_lt (by omega)
  refine ⟨fbByteIndex_eq x y, fbBitOffset_eq x, ?_, ?_, ?_⟩
  · rw [fbByteIndex_eq, FRAMEBUFFER_SIZE]
    omega
  · simp only [getPixel, setPixel, if_pos rfl]
    rw [Nat.shiftRight_eq_div_pow, fbBitOffset_eq, hv4]
    exact cell_splice_same _ v (x % 4) (by omega) hv
  · by_cases hb : fbByteIndex x' y' = fbByteIndex x y
    · have hcell : x' % 4 ≠ x % 4 := by
        rw [fbByteIndex_eq, fbByteIndex_eq] at hb
        simp only [ne_eq, Prod.mk.injEq, not_and] at hne
        omega
      simp only [getPixel, setPixel, if_pos hb, hb]
      rw [Nat.shiftRight_eq_div_pow, Nat.shiftRight_eq_div_pow,
        fbBitOffset_eq, fbBitOffset_eq, hv4]
      exact cell_splice_other _ v (x % 4) (x' % 4) (by omega) (by omega)
        (by omega) hv
    · simp only [getPixel, setPixel, if_neg hb]

/-- Witness for `C1_framebuffer_cell_roundtrip` at `fb i = i`, `(x, y) =
(5, 7)`, `v = 2`, other pixel `(6, 7)`. -/
theorem C1_framebuffer_cell_roundtrip_witness :
    fbByteIndex 5 7 = 7 * 40 + 5 / 4 ∧
    fbBitOffset 5 = 5 % 4 * 2 ∧
    fbByteIndex 5 7 < FRAMEBUFFER_SIZE ∧
    getPixel (setPixel (fun i => i) 5 7 2) 5 7 = 2 ∧
    getPixel (setPixel (fun i => i) 5 7 2) 6 7 = getPixel (fun i => i) 6 7 :=
  C1_framebuffer_cell_roundtrip (fun i => i) 5 7 2 6 7 (by decide) (by decide)
    (by decide) (by decide) (by decide) (by decide)

/-- C10 counterexample: the framebuffer does NOT occupy bytes
`0xa0`–`0x19ff`: it is 6400 bytes starting at `0xa0`, so its last byte is
`0x199f`, and `0x19ff` lies outside the region. -/
theorem C10_framebuffer_range_counterexample :
    ¬ (regionAddrs FRAMEBUFFER_ADDR FRAMEBUFFER_SIZE = Set.Ico 0xa0 (0x19ff + 1)) := by
  intro h
  have h2 : (0x19ff : Nat) ∈ Set.Ico (0xa0 : Nat) (0x19ff + 1) := by
    rw [Set.mem_Ico]
    omega
  rw [← h, regionAddrs, Set.mem_Ico, FRAMEBUFFER_ADDR, FRAMEBUFFER_SIZE] at h2
  omega

/-- C10 (amended): the declared MMIO regions are pairwise disjoint, each
register occupies exactly its documented byte range (PALETTE `0x04`–`0x13`,
DRAW_COLORS `0x14`–`0x15`, GAMEPADS `0x16`–`0x19`, MOUSE_X `0x1a`–`0x1b`,
MOUSE_Y `0x1c`–`0x1d`, MOUSE_BUTTONS `0x1e`, SYSTEM_FLAGS `0x1f`, NETPLAY
`0x20`, FRAMEBUFFER `0xa0`–`0x199f`), and the register block `0x04`–`0x20`
is exactly contiguous: the union of the eight register regions is the
interval `[0x04, 0x20]` with no gaps. -/
theorem C10_mmio_regions_disjoint_contiguous :
    List.Pairwise (fun r r' => Disjoint (regionAddrs r.1 r.2) (regionAddrs r'.1 r'.2))
      mmioRegions ∧
    regionAddrs PALETTE_ADDR PALETTE_SIZE = Set.Ico 0x04 (0x13 + 1) ∧
    regionAddrs DRAW_COLORS_ADDR DRAW_COLORS_SIZE = Set.Ico 0x14 (0x15 + 1) ∧
    regionAddrs GAMEPADS_ADDR GAMEPADS_SIZE = Set.Ico 0x16 (0x19 + 1) ∧
    regionAddrs MOUSE_X_ADDR MOUSE_X_SIZE = Set.Ico 0x1a (0x1b + 1) ∧
    regionAddrs MOUSE_Y_ADDR MOUSE_Y_SIZE = Set.Ico 0x1c (0x1d + 1) ∧
    regionAddrs MOUSE_BUTTONS_ADDR MOUSE_BUTTONS_SIZE = Set.Ico 0x1e (0x1e + 1) ∧
    regionAddrs SYSTEM_FLAGS_ADDR SYSTEM_FLAGS_SIZE = Set.Ico 0x1f (0x1f + 1) ∧
    regionAddrs NETPLAY_ADDR NETPLAY_SIZE = Set.Ico 0x20 (0x20 + 1) ∧
    regionAddrs FRAMEBUFFER_ADDR FRAMEBUFFER_SIZE = Set.Ico 0xa0 (0x199f + 1) ∧
    regionAddrs PALETTE_ADDR PALETTE_SIZE ∪
        regionAddrs DRAW_COLORS_ADDR DRAW_COLORS_SIZE ∪
        regionAddrs GAMEPADS_ADDR GAMEPADS_SIZE ∪
        regionAddrs MOUSE_X_ADDR MOUSE_X_SIZE ∪
        regionAddrs MOUSE_Y_ADDR MOUSE_Y_SIZE ∪
        regionAddrs MOUSE_BUTTONS_ADDR MOUSE_BUTTONS_SIZE ∪
        regionAddrs SYSTEM_FLAGS_ADDR SYSTEM_FLAGS_SIZE ∪
        regionAddrs NETPLAY_ADDR NETPLAY_SIZE =
      Set.Ico 0x04 (0x20 + 1) := by
  refine ⟨?_, ?_⟩
  · have hb : mmioRegions.Pairwise (fun r r' => regionsDisjointB r r' = true) := by
      decide
    exact hb.imp (fun h => regionsDisjointB_sound h)
  · refine ⟨?_, ?_, ?_, ?_, ?_, ?_, ?_, ?_, ?_, ?_⟩ <;>
      · ext a
        simp only [regionAddrs, PALETTE_ADDR, PALETTE_SIZE, DRAW_COLORS_ADDR,
          DRAW_COLORS_SIZE, GAMEPADS_ADDR, GAMEPADS_SIZE, MOUSE_X_ADDR,
          MOUSE_X_SIZE, MOUSE_Y_ADDR, MOUSE_Y_SIZE, MOUSE_BUTTONS_ADDR,
          MOUSE_BUTTONS_SIZE, SYSTEM_FLAGS_ADDR, SYSTEM_FLAGS_SIZE,
          NETPLAY_ADDR, NETPLAY_SIZE, FRAMEBUFFER_ADDR, FRAMEBUFFER_SIZE,
          Set.mem_union, Set.mem_Ico]
        try omega

/-- C4: the blit flags word assigns bit 0 to sprite format selection
(`BLIT_1BPP = 0`, `BLIT_2BPP = 1`), bit 1 to horizontal flip
(`BLIT_FLIP_H = 2`), bit 2 to vertical flip (`BLIT_FLIP_V = 4`), and bit 3
to 90° counterclockwise rotation (`BLIT_ROTATE = 8`). -/
theorem C4_blit_flag_values :
    BLIT_1BPP = 0 ∧ BLIT_2BPP = 1 ∧ BLIT_FLIP_H = 2 ∧ BLIT_FLIP_V = 4 ∧
    BLIT_ROTATE = 8 ∧
    BLIT_2BPP = 2 ^ 0 ∧ BLIT_FLIP_H = 2 ^ 1 ∧ BLIT_FLIP_V = 2 ^ 2 ∧
    BLIT_ROTATE = 2 ^ 3 := by
  decide

/-- C7: the tone flags byte packs the channel in bits 0–1
(`TONE_PULSE1 = 0`, `TONE_PULSE2 = 1`, `TONE_TRIANGLE = 2`,
`TONE_NOISE = 3`), the pulse duty cycle in bits 2–3 (`TONE_DC_12_5 = 0`,
`TONE_DC_25 = 4`, `TONE_DC_50 = 8`, `TONE_DC_75 = 12`), and the pan in
bits 4–5 (`TONE_PAN_CENTER = 0`, `TONE_PAN_LEFT = 16`,
`TONE_PAN_RIGHT = 32`); no defined pan constant uses pan field value 3. -/
theorem C7_tone_flag_values :
    TONE_PULSE1 = 0 ∧ TONE_PULSE2 = 1 ∧ TONE_TRIANGLE = 2 ∧ TONE_NOISE = 3 ∧
    TONE_DC_12_5 = 0 ∧ TONE_DC_25 = 4 ∧ TONE_DC_50 = 8 ∧ TONE_DC_75 = 12 ∧
    TONE_PAN_CENTER = 0 ∧ TONE_PAN_LEFT = 16 ∧ TONE_PAN_RIGHT = 32 ∧
    TONE_DC_25 = 1 * 2 ^ 2 ∧ TONE_DC_50 = 2 * 2 ^ 2 ∧ TONE_DC_75 = 3 * 2 ^ 2 ∧
    TONE_PAN_LEFT = 1 * 2 ^ 4 ∧ TONE_PAN_RIGHT = 2 * 2 ^ 4 ∧
    TONE_PAN_CENTER / 2 ^ 4 % 4 ≠ 3 ∧ TONE_PAN_LEFT / 2 ^ 4 % 4 ≠ 3 ∧
    TONE_PAN_RIGHT / 2 ^ 4 % 4 ≠ 3 := by
  decide

/-- C8: the gamepad masks are `0x01`, `0x02`, `0x10`, `0x20`, `0x40`,
`0x80` with bits 2–3 unused by every mask; the mouse masks are `1`, `2`,
`4`; the system flags are `1` (preserve framebuffer) and `2` (hide gamepad
overlay). -/
theorem C8_input_system_mask_values :
    GAMEPAD_X = 0x01 ∧ GAMEPAD_Z = 0x02 ∧ GAMEPAD_LEFT = 0x10 ∧
    GAMEPAD_RIGHT = 0x20 ∧ GAMEPAD_UP = 0x40 ∧ GAMEPAD_DOWN = 0x80 ∧
    GAMEPAD_X &&& 0b1100 = 0 ∧ GAMEPAD_Z &&& 0b1100 = 0 ∧
    GAMEPAD_LEFT &&& 0b1100 = 0 ∧ GAMEPAD_RIGHT &&& 0b1100 = 0 ∧
    GAMEPAD_UP &&& 0b1100 = 0 ∧ GAMEPAD_DOWN &&& 0b1100 = 0 ∧
    MOUSE_LEFT = 1 ∧ MOUSE_RIGHT = 2 ∧ MOUSE_MIDDLE = 4 ∧
    SYSTEM_PRESERVE_FRAMEBUFFER = 1 ∧ SYSTEM_HIDE_GAMEPAD_OVERLAY = 2 := by
  decide

/-! ## Persistent storage model (C5)

`diskr`/`diskw` are host calls declared `extern` in the crate; the store
itself is modelled from the spec. -/

/-- Modelled from the spec: WASM-4 persistent storage holds at most 1024
bytes. -/
def DISK_CAPACITY : Nat := 1024

/-- Modelled from the spec: `diskw(src, size)` copies
`min size DISK_CAPACITY` bytes from the source buffer to the start of the
store and returns the count of bytes transferred together with the
resulting store. -/
def diskw (src : Nat → Nat) (size : Nat) (store : Nat → Nat) :
    Nat × (Nat → Nat) :=
  let n := min size DISK_CAPACITY
  (n, fun i => if i < n then src i else store i)

/-- Modelled from the spec: `diskr(dest, size)` copies
`min size DISK_CAPACITY` bytes from the start of the store into the
destination buffer and returns the count of bytes transferred together
with the resulting buffer. -/
def diskr (store : Nat → Nat) (size : Nat) (dest : Nat → Nat) :
    Nat × (Nat → Nat) :=
  let n := min size DISK_CAPACITY
  (n, fun i => if i < n then store i else dest i)

/-- C5: `diskw` followed by `diskr` of the same `size ≤ 1024` returns
exactly the bytes written; for any `size`, the transferred count reported
by `diskr` and by `diskw` is at most 1024 (short counts are the only
signal, there is no separate error value). -/
theorem C5_disk_roundtrip_and_cap (src store dest : Nat → Nat) (size : Nat) :
    (size ≤ 1024 →
      (diskw src size store).1 = size ∧
      ∀ i, i < size → (diskr (diskw src size store).2 size dest).2 i = src i) ∧
    (diskr store size dest).1 ≤ 1024 ∧
    (diskw src size store).1 ≤ 1024 := by
  refine ⟨fun hsz => ⟨?_, fun i hi => ?_⟩, ?_, ?_⟩
  · simp only [diskw, DISK_CAPACITY]
    omega
  · have hmin : min size DISK_CAPACITY = size := by
      simp only [DISK_CAPACITY]
      omega
    simp only [diskr, diskw, hmin, if_pos hi]
  · simp only [diskr, DISK_CAPACITY]
    omega
  · simp only [diskw, DISK_CAPACITY]
    omega

/-- Witness for `C5_disk_roundtrip_and_cap` at `src i = i + 10`, zeroed
store and destination, `size = 4`. -/
theorem C5_disk_roundtrip_and_cap_witness :
    ((4 ≤ 1024 →
      (diskw (fun i => i + 10) 4 (fun _ => 0)).1 = 4 ∧
      ∀ i, i < 4 →
        (diskr (diskw (fun i => i + 10) 4 (fun _ => 0)).2 4 (fun _ => 0)).2 i
          = i + 10) ∧
    (diskr (fun _ => 0) 4 (fun _ => 0)).1 ≤ 1024 ∧
    (diskw (fun i => i + 10) 4 (fun _ => 0)).1 ≤ 1024) ∧
    (diskr (fun _ => 0) 2000 (fun _ => 0)).1 ≤ 1024 ∧
    (diskw (fun i => i + 10) 2000 (fun _ => 0)).1 ≤ 1024 :=
  ⟨C5_disk_roundtrip_and_cap (fun i => i + 10) (fun _ => 0) (fun _ => 0) 4,
   (C5_disk_roundtrip_and_cap (fun i => i + 10) (fun _ => 0) (fun _ => 0) 2000).2⟩

/-! ## Tone parameter decoding model (C6)

`tone` is a host call declared `extern` in the crate; the host-side
decoding of its packed parameters is modelled from the spec. -/

/-- The parameters of one synthesized note, as decoded by the host. -/
structure ToneParams where
  startFreq : Nat
  endFreq : Nat
  attackTime : Nat
  decayTime : Nat
  sustainTime : Nat
  releaseTime : Nat
  attackVol : Nat
  sustainVol : Nat
  channel : Nat
  mode : Nat
  pan : Nat

/-- Modelled from the spec: decoding of `tone(frequency, duration, volume,
flags)`.  `frequency` holds start Hz in its low 16 bits and end Hz in its
high 16 bits; `duration` holds the ADSR times as four bytes (attack
highest, release lowest); `volume` holds the attack volume in its high 16
bits and the sustain volume in its low 16 bits, and an attack volume of 0
defaults to 100; `flags` holds channel in bits 0–1, duty-cycle mode in
bits 2–3, pan in bits 4–5. -/
def toneParams (frequency duration volume flags : Nat) : ToneParams :=
  let attackRaw := volume / 2 ^ 16 % 2 ^ 16
  { startFreq := frequency % 2 ^ 16
    endFreq := frequency / 2 ^ 16 % 2 ^ 16
    attackTime := duration / 2 ^ 24 % 2 ^ 8
    decayTime := duration / 2 ^ 16 % 2 ^ 8
    sustainTime := duration / 2 ^ 8 % 2 ^ 8
    releaseTime := duration % 2 ^ 8
    attackVol := if attackRaw = 0 then 100 else attackRaw
    sustainVol := volume % 2 ^ 16
    channel := flags % 4
    mode := flags / 4 % 4
    pan := flags / 16 % 4 }

/-- C6: a `tone` call whose attack-volume field is 0 decodes to exactly
the same parameters as the same call with attack-volume field 100: the
zero is substituted by the default 100, not interpreted as silence. -/
theorem C6_tone_attack_volume_default (frequency duration volume flags : Nat)
    (h : volume / 2 ^ 16 % 2 ^ 16 = 0) :
    toneParams frequency duration volume flags =
      toneParams frequency duration (volume % 2 ^ 16 + 100 * 2 ^ 16) flags := by
  have h1 : (volume % 2 ^ 16 + 100 * 2 ^ 16) / 2 ^ 16 % 2 ^ 16 = 100 := by
    omega
  have h2 : (volume % 2 ^ 16 + 100 * 2 ^ 16) % 2 ^ 16 = volume % 2 ^ 16 := by
    omega
  simp only [toneParams, h, h1, h2, if_pos rfl]
  norm_num

/-- Witness for `C6_tone_attack_volume_default` at frequency 440, duration
8, volume 7 (attack field 0, sustain 7), flags 0. -/
theorem C6_tone_attack_volume_default_witness :
    toneParams 440 8 7 0 =
      toneParams 440 8 (7 % 2 ^ 16 + 100 * 2 ^ 16) 0 :=
  C6_tone_attack_volume_default 440 8 7 0 (by decide)

/-! ## Line drawing model (C2)

`line`, `vline` and `hline` are host calls declared `extern` in the
crate; the rasterizer is modelled from the spec. -/

/-- Modelled from the spec: pixels drawn by the host for
`line(x1, y1, x2, y2)`: `n+1` evenly spaced pixels along the segment,
where `n = max |dx| |dy|` (a DDA rasterizer; exact for the axis-aligned
segments the crate's `hline`/`vline` contracts concern). -/
def linePoints (x1 y1 x2 y2 : Int) : List (Int × Int) :=
  let dx := x2 - x1
  let dy := y2 - y1
  let n := max dx.natAbs dy.natAbs
  if n = 0 then [(x1, y1)]
  else (List.range (n + 1)).map fun i => (x1 + dx * i / n, y1 + dy * i / n)

/-- Modelled from the spec: `vline(x, y, len)` draws `len` pixels downward
starting at `(x, y)`. -/
def vlinePoints (x y : Int) (len : Nat) : List (Int × Int) :=
  (List.range len).map fun i => (x, y + i)

/-- Modelled from the spec: `hline(x, y, len)` draws `len` pixels
rightward starting at `(x, y)`. -/
def hlinePoints (x y : Int) (len : Nat) : List (Int × Int) :=
  (List.range len).map fun i => (x + i, y)

/-- Modelled from the spec: `line` draws with draw-color slot 1. -/
def lineColorSlot : Nat := 1

/-- Modelled from the spec: `vline` draws with draw-color slot 1. -/
def vlineColorSlot : Nat := 1

/-- Modelled from the spec: `hline` draws with draw-color slot 1. -/
def hlineColorSlot : Nat := 1

lemma vlinePoints_eq_linePoints (x y : Int) (len : Nat) (h : 1 ≤ len) :
    vlinePoints x y len = linePoints x y x (y + len - 1) := by
  obtain ⟨m, rfl⟩ : ∃ m, len = m + 1 := ⟨len - 1, by omega⟩
  have hdx : x - x = 0 := by ring
  have hdy : y + (↑(m + 1) : Int) - 1 - y = (m : Int) := by push_cast; ring
  rw [linePoints]
  simp only [hdx, hdy, Int.natAbs_zero, Int.natAbs_ofNat, Nat.zero_max,
    Nat.max_eq_right (Nat.zero_le m)]
  by_cases hm : m = 0
  · subst hm
    rw [if_pos rfl, vlinePoints]
    simp [List.range_succ]
  · rw [if_neg hm, vlinePoints]
    apply List.map_congr_left
    intro i hi
    have hmz : (m : Int) ≠ 0 := by exact_mod_cast hm
    rw [Int.zero_mul, Int.zero_ediv, Int.mul_ediv_cancel_left _ hmz]
    simp

lemma hlinePoints_eq_linePoints (x y : Int) (len : Nat) (h : 1 ≤ len) :
    hlinePoints x y len = linePoints x y (x + len - 1) y := by
  obtain ⟨m, rfl⟩ : ∃ m, len = m + 1 := ⟨len - 1, by omega⟩
  have hdy : y - y = 0 := by ring
  have hdx : x + (↑(m + 1) : Int) - 1 - x = (m : Int) := by push_cast; ring
  rw [linePoints]
  simp only [hdx, hdy, Int.natAbs_zero, Int.natAbs_ofNat, Nat.max_zero,
    Nat.max_eq_left (Nat.zero_le m)]
  by_cases hm : m = 0
  · subst hm
    rw [if_pos rfl, hlinePoints]
    simp [List.range_succ]
  · rw [if_neg hm, hlinePoints]
    apply List.map_congr_left
    intro i hi
    have hmz : (m : Int) ≠ 0 := by exact_mod_cast hm
    rw [Int.zero_mul, Int.zero_ediv, Int.mul_ediv_cancel_left _ hmz]
    simp

/-- C2: for every `len ≥ 1`, `vline(x, y, len)` draws exactly the pixels
of `line(x, y, x, y+len-1)` and `hline(x, y, len)` exactly those of
`line(x, y, x+len-1, y)` (equal as pixel lists and hence as pixel sets),
and all three primitives draw with draw-color slot 1 only. -/
theorem C2_hline_vline_line_equivalence (x y : Int) (len : Nat) (h : 1 ≤ len) :
    vlinePoints x y len = linePoints x y x (y + len - 1) ∧
    hlinePoints x y len = linePoints x y (x + len - 1) y ∧
    (∀ p, p ∈ vlinePoints x y len ↔ p ∈ linePoints x y x (y + len - 1)) ∧
    (∀ p, p ∈ hlinePoints x y len ↔ p ∈ linePoints x y (x + len - 1) y) ∧
    vlineColorSlot = lineColorSlot ∧ hlineColorSlot = lineColorSlot ∧
    lineColorSlot = 1 := by
  have hv := vlinePoints_eq_linePoints x y len h
  have hh := hlinePoints_eq_linePoints x y len h
  exact ⟨hv, hh, fun p => by rw [hv], fun p => by rw [hh], rfl, rfl, rfl⟩

/-- Witness for `C2_hline_vline_line_equivalence` at `(x, y) = (2, 3)`,
`len = 3`. -/
theorem C2_hline_vline_line_equivalence_witness :
    vlinePoints 2 3 3 = linePoints 2 3 2 (3 + (3 : Nat) - 1) ∧
    hlinePoints 2 3 3 = linePoints 2 3 (2 + (3 : Nat) - 1) 3 ∧
    (∀ p, p ∈ vlinePoints 2 3 3 ↔ p ∈ linePoints 2 3 2 (3 + (3 : Nat) - 1)) ∧
    (∀ p, p ∈ hlinePoints 2 3 3 ↔ p ∈ linePoints 2 3 (2 + (3 : Nat) - 1) 3) ∧
    vlineColorSlot = lineColorSlot ∧ hlineColorSlot = lineColorSlot ∧
    lineColorSlot = 1 :=
  C2_hline_vline_line_equivalence 2 3 3 (by decide)

/-! ## Blit model (C3)

`blit` is a host call declared `extern` in the crate; the sprite decoding
and flag handling are modelled from the spec. -/

/-- Modelled from the spec: decode pixel `(sx, sy)` of a 1BPP sprite of
width `w`: one bit per pixel, most significant bit first within each
byte. -/
def sprite1bpp (data : Nat → Nat) (w sx sy : Nat) : Nat :=
  let idx := sy * w + sx
  data (idx / 8) / 2 ^ (7 - idx % 8) % 2

/-- Modelled from the spec: decode pixel `(sx, sy)` of a 2BPP sprite of
width `w`: two bits per pixel, most significant pair first within each
byte. -/
def sprite2bpp (data : Nat → Nat) (w sx sy : Nat) : Nat :=
  let idx := sy * w + sx
  data (idx / 4) / 2 ^ (6 - idx % 4 * 2) % 4

/-- Modelled from the spec: the source pixel `blit` copies to destination
offset `(dx, dy)` for a `w × h` sprite under `flags`: bit 3 rotates 90°
counterclockwise, bit 2 flips vertically, bit 1 flips horizontally, bit 0
selects the 1BPP (0) or 2BPP (1) source format. -/
def blitSample (data : Nat → Nat) (w h flags dx dy : Nat) : Nat :=
  let p := if flags / 8 % 2 = 1 then (w - 1 - dy, dx) else (dx, dy)
  let sx := if flags / 2 % 2 = 1 then w - 1 - p.1 else p.1
  let sy := if flags / 4 % 2 = 1 then h - 1 - p.2 else p.2
  if flags % 2 = 1 then sprite2bpp data w sx sy else sprite1bpp data w sx sy

/-- C3: bit 0 of the blit flags selects 1BPP vs 2BPP decoding of the
source sprite; with the horizontal-flip flag added, the destination column
order is mirrored relative to the unflipped blit; with both flip flags
added, the output equals a 180° rotation of the unflipped output.  `f` is
the format-only flags word (0 or 1). -/
theorem C3_blit_format_and_flips (data : Nat → Nat) (w h f dx dy : Nat)
    (hf : f ≤ 1) (hdx : dx < w) (hdy : dy < h) :
    blitSample data w h BLIT_1BPP dx dy = sprite1bpp data w dx dy ∧
    blitSample data w h BLIT_2BPP dx dy = sprite2bpp data w dx dy ∧
    blitSample data w h (f + BLIT_FLIP_H) dx dy
      = blitSample data w h f (w - 1 - dx) dy ∧
    blitSample data w h (f + BLIT_FLIP_H + BLIT_FLIP_V) dx dy
      = blitSample data w h f (w - 1 - dx) (h - 1 - dy) := by
  interval_cases f <;>
    simp [blitSample, BLIT_1BPP, BLIT_2BPP, BLIT_FLIP_H, BLIT_FLIP_V]

/-- Witness for `C3_blit_format_and_flips` on the 2×2 sprite with byte 0 =
`0b00011011` (2BPP pixels 0,1,2,3), format flag 1, destination offset
`(0, 1)`. -/
theorem C3_blit_format_and_flips_witness :
    blitSample (fun _ => 0b00011011) 2 2 BLIT_1BPP 0 1
      = sprite1bpp (fun _ => 0b00011011) 2 0 1 ∧
    blitSample (fun _ => 0b00011011) 2 2 BLIT_2BPP 0 1
      = sprite2bpp (fun _ => 0b00011011) 2 0 1 ∧
    blitSample (fun _ => 0b00011011) 2 2 (1 + BLIT_FLIP_H) 0 1
      = blitSample (fun _ => 0b00011011) 2 2 1 (2 - 1 - 0) 1 ∧
    blitSample (fun _ => 0b00011011) 2 2 (1 + BLIT_FLIP_H + BLIT_FLIP_V) 0 1
      = blitSample (fun _ => 0b00011011) 2 2 1 (2 - 1 - 0) (2 - 1 - 1) :=
  C3_blit_format_and_flips (fun _ => 0b00011011) 2 2 1 0 1 (by decide)
    (by decide) (by decide)

/-! ## Shape primitive model (C9)

`rect` and `oval` are host calls declared `extern` in the crate; the
fill/outline colour selection is modelled from the spec. -/

/-- Draw-color slot `s` (`1`–`4`) of the `DRAW_COLORS` register value
`dc`: nibble `s - 1` (layout `0b44443333_22221111`). -/
def drawColorSlot (dc s : Nat) : Nat := dc / 16 ^ (s - 1) % 16

/-- Modelled from the spec: colour decision shared by the shape
primitives.  An outline pixel is drawn with draw-color slot 2, an interior
pixel with draw-color slot 1; a slot whose nibble is 0 is transparent and
suppresses that part (`none` = no framebuffer write, `some c` = write of
palette index `c`, the slot value minus one). -/
def shapePixelColor (dc : Nat) (outline inside : Bool) : Option Nat :=
  if outline then
    if drawColorSlot dc 2 = 0 then none else some (drawColorSlot dc 2 - 1)
  else if inside then
    if drawColorSlot dc 1 = 0 then none else some (drawColorSlot dc 1 - 1)
  else none

/-- Whether `(px, py)` lies in the `w × h` rectangle with top-left
`(x, y)`. -/
def rectInside (x y : Int) (w h : Nat) (px py : Int) : Bool :=
  decide (x ≤ px) && decide (px < x + w) && decide (y ≤ py) &&
    decide (py < y + h)

/-- Whether `(px, py)` lies on the border of the `w × h` rectangle with
top-left `(x, y)`. -/
def rectOutline (x y : Int) (w h : Nat) (px py : Int) : Bool :=
  rectInside x y w h px py &&
    (decide (px = x) || decide (px = x + w - 1) || decide (py = y) ||
      decide (py = y + h - 1))

/-- Modelled from the spec: the colour `rect(x, y, w, h)` writes at pixel
`(px, py)`: border pixels use draw-color slot 2, interior pixels slot 1,
transparent slots suppress the write. -/
def rectPixelColor (dc : Nat) (x y : Int) (w h : Nat) (px py : Int) :
    Option Nat :=
  shapePixelColor dc (rectOutline x y w h px py) (rectInside x y w h px py)

/-- Whether `(px, py)` lies inside the oval centred at `(x, y)` (per the
crate's doc comment) with width `w` and height `h`: the inscribed-ellipse
inequality scaled to integers. -/
def ovalInside (x y : Int) (w h : Nat) (px py : Int) : Bool :=
  decide (4 * (px - x) ^ 2 * (h : Int) ^ 2 + 4 * (py - y) ^ 2 * (w : Int) ^ 2
    ≤ (w : Int) ^ 2 * (h : Int) ^ 2)

/-- Whether `(px, py)` is an outline pixel of the oval: inside, with at
least one 4-neighbour outside. -/
def ovalOutline (x y : Int) (w h : Nat) (px py : Int) : Bool :=
  ovalInside x y w h px py &&
    (!ovalInside x y w h (px - 1) py || !ovalInside x y w h (px + 1) py ||
     !ovalInside x y w h px (py - 1) || !ovalInside x y w h px (py + 1))

/-- Modelled from the spec: the colour `oval(x, y, w, h)` writes at pixel
`(px, py)`: outline pixels use draw-color slot 2, interior pixels slot 1,
transparent slots suppress the write. -/
def ovalPixelColor (dc : Nat) (x y : Int) (w h : Nat) (px py : Int) :
    Option Nat :=
  shapePixelColor dc (ovalOutline x y w h px py) (ovalInside x y w h px py)

/-- C9: for `rect` and `oval`, draw-color slot 1 is the fill colour and
slot 2 the outline colour, and a slot nibble of 0 suppresses that part:
outline pixels are written with slot 2 when it is nonzero, interior
pixels with slot 1 when it is nonzero, and with fill slot 0 and outline
slot nonzero every written pixel is an outline pixel carrying the outline
colour — no interior fill pixel is ever written. -/
theorem C9_shape_fill_outline_slots (dc : Nat) (x y : Int) (w h : Nat)
    (px py : Int) (h1 : drawColorSlot dc 1 = 0) (h2 : drawColorSlot dc 2 ≠ 0) :
    (∀ d, rectOutline x y w h px py = true →
      rectPixelColor d x y w h px py =
        if drawColorSlot d 2 = 0 then none else some (drawColorSlot d 2 - 1)) ∧
    (∀ d, rectOutline x y w h px py = false →
      rectInside x y w h px py = true →
      rectPixelColor d x y w h px py =
        if drawColorSlot d 1 = 0 then none else some (drawColorSlot d 1 - 1)) ∧
    (∀ d, ovalOutline x y w h px py = true →
      ovalPixelColor d x y w h px py =
        if drawColorSlot d 2 = 0 then none else some (drawColorSlot d 2 - 1)) ∧
    (∀ d, ovalOutline x y w h px py = false →
      ovalInside x y w h px py = true →
      ovalPixelColor d x y w h px py =
        if drawColorSlot d 1 = 0 then none else some (drawColorSlot d 1 - 1)) ∧
    (rectOutline x y w h px py = false →
      rectPixelColor dc x y w h px py = none) ∧
    (rectOutline x y w h px py = true →
      rectPixelColor dc x y w h px py = some (drawColorSlot dc 2 - 1)) ∧
    (ovalOutline x y w h px py = false →
      ovalPixelColor dc x y w h px py = none) ∧
    (ovalOutline x y w h px py = true →
      ovalPixelColor dc x y w h px py = some (drawColorSlot dc 2 - 1)) := by
  refine ⟨fun d ho => ?_, fun d ho hi => ?_, fun d ho => ?_, fun d ho hi => ?_,
    fun ho => ?_, fun ho => ?_, fun ho => ?_, fun ho => ?_⟩ <;>
    simp_all [rectPixelColor, ovalPixelColor, shapePixelColor, h1, h2]

/-- Witness for `C9_shape_fill_outline_slots` with `DRAW_COLORS = 0x20`
(fill slot 0, outline slot 2), a 3×3 rectangle/oval at the origin, pixel
`(1, 1)`. -/
theorem C9_shape_fill_outline_slots_witness :
    ((∀ d, rectOutline 0 0 3 3 1 1 = true →
      rectPixelColor d 0 0 3 3 1 1 =
        if drawColorSlot d 2 = 0 then none else some (drawColorSlot d 2 - 1)) ∧
    (∀ d, rectOutline 0 0 3 3 1 1 = false →
      rectInside 0 0 3 3 1 1 = true →
      rectPixelColor d 0 0 3 3 1 1 =
        if drawColorSlot d 1 = 0 then none else some (drawColorSlot d 1 - 1)) ∧
    (∀ d, ovalOutline 0 0 3 3 1 1 = true →
      ovalPixelColor d 0 0 3 3 1 1 =
        if drawColorSlot d 2 = 0 then none else some (drawColorSlot d 2 - 1)) ∧
    (∀ d, ovalOutline 0 0 3 3 1 1 = false →
      ovalInside 0 0 3 3 1 1 = true →
      ovalPixelColor d 0 0 3 3 1 1 =
        if drawColorSlot d 1 = 0 then none else some (drawColorSlot d 1 - 1)) ∧
    (rectOutline 0 0 3 3 1 1 = false →
      rectPixelColor 0x20 0 0 3 3 1 1 = none) ∧
    (rectOutline 0 0 3 3 1 1 = true →
      rectPixelColor 0x20 0 0 3 3 1 1 = some (drawColorSlot 0x20 2 - 1)) ∧
    (ovalOutline 0 0 3 3 1 1 = false →
      ovalPixelColor 0x20 0 0 3 3 1 1 = none) ∧
    (ovalOutline 0 0 3 3 1 1 = true →
      ovalPixelColor 0x20 0 0 3 3 1 1 = some (drawColorSlot 0x20 2 - 1))) ∧
    rectOutline 0 0 3 3 1 1 = false ∧
    rectInside 0 0 3 3 1 1 = true ∧
    rectPixelColor 0x20 0 0 3 3 1 1 = none :=
  ⟨C9_shape_fill_outline_slots 0x20 0 0 3 3 1 1 (by decide) (by decide),
    by decide, by decide, by decide⟩

end W4
